import Mathlib

/-!
# Specter expression engine — shallow embedding

A shallow embedding of the Specter expression-language engine
(`src/app/language/specter-completion.ts` evaluator part,
`src/app/language/specter-validation.ts` validator part,
`src/app/language/specter-grammar.ts` grammar), with theorems checking the
natural-language specification's claims against the code.

Conventions:
* TypeScript `$type`-discriminated AST nodes become one closed inductive
  `Expression`; the `$type === '...'` dispatch chains become constructor
  matches.
* JavaScript runtime values relevant to the engine become the inductive
  `Value` (null, boolean, number, string, array).  Numbers are modelled as
  `Rat`; the claims only exercise small integers and exact division, where
  IEEE float64 and `Rat` agree.
* `throw` inside a built-in implementation becomes `Except.error`; the
  `try/catch` in `evaluateExpression` (the only catch on those throw paths)
  becomes the `.error msg` branch producing `{value:null, type:'error',
  success:false, error:msg}`.
-/

namespace Specter

/-- JavaScript runtime values handled by the engine. -/
inductive Value where
  | null : Value
  | bool : Bool → Value
  | num : Rat → Value
  | str : String → Value
  | arr : List Value → Value

/-- JavaScript truthiness of a `Value` (`Boolean(v)`): `null`, `false`,
`0` and `""` are falsy; arrays (objects) are always truthy. -/
def jsTruthy : Value → Bool
  | .null => false
  | .bool b => b
  | .num q => q ≠ 0
  | .str s => s ≠ ""
  | .arr _ => true

/-- JavaScript strict equality `===` restricted to the engine's values.
Primitives compare by value; two arrays compare by reference, and the
evaluator never passes the same array object twice, so array comparison
is `false` here. -/
def jsStrictEq : Value → Value → Bool
  | .null, .null => true
  | .bool a, .bool b => a == b
  | .num a, .num b => a == b
  | .str a, .str b => a == b
  | _, _ => false

/-- JavaScript `a > b` on the value shapes the engine produces: numeric and
lexicographic string comparison are exact; exotic coercion pairs (never
exercised by the claims) are approximated by `false`. -/
def jsGreater : Value → Value → Bool
  | .num a, .num b => b < a
  | .str a, .str b => b < a
  | _, _ => false

/-- JavaScript `a < b`, same coverage as `jsGreater`. -/
def jsLess : Value → Value → Bool
  | .num a, .num b => a < b
  | .str a, .str b => a < b
  | _, _ => false

/-- JavaScript `a + b` on the value shapes the engine produces: numeric
addition and string concatenation are exact; other coercion pairs (never
exercised by the claims) are approximated by `null`. -/
def jsAdd : Value → Value → Value
  | .num a, .num b => .num (a + b)
  | .str a, .str b => .str (a ++ b)
  | _, _ => .null

/-- JavaScript `a - b` (numeric case exact, other coercions approximated). -/
def jsSub : Value → Value → Value
  | .num a, .num b => .num (a - b)
  | _, _ => .null

/-- JavaScript `a * b` (numeric case exact, other coercions approximated). -/
def jsMul : Value → Value → Value
  | .num a, .num b => .num (a * b)
  | _, _ => .null

/-- JavaScript `a / b` for `b ≠ 0` (the `divide` built-in throws before
dividing by zero). -/
def jsDiv : Value → Value → Value
  | .num a, .num b => .num (a / b)
  | _, _ => .null

/-- JavaScript `a && b`: returns `b` when `a` is truthy, else `a`. -/
def jsAnd (a b : Value) : Value := if jsTruthy a then b else a

/-- JavaScript `a || b`: returns `a` when `a` is truthy, else `b`. -/
def jsOr (a b : Value) : Value := if jsTruthy a then a else b

/-- The `Empty` built-in body: `!args[0] || args[0].length === 0`. -/
def jsEmpty (v : Value) : Bool :=
  if jsTruthy v then
    match v with
    | .str s => s.length == 0
    | .arr l => l.length == 0
    | _ => false
  else true

/-- The `AND`/`OR` operator of a `LogicalExpression`. -/
inductive LogicalOp where
  | AND : LogicalOp
  | OR : LogicalOp
deriving DecidableEq

/-- The Specter AST (`src/app/language/specter-validator.ts` node
declarations; `$type`-discriminated interfaces become one closed sum).
`logical` carries the optional `operator`/`right` fields of the source's
`LogicalExpression`; `functionCall` carries the optional `arguments`
object (whose `values` list is inlined). -/
inductive Expression where
  | logical (left : Expression) (operator : Option LogicalOp)
      (right : Option Expression) : Expression
  | functionCall (name : String) (arguments : Option (List Expression)) :
      Expression
  | parenthesized (expression : Expression) : Expression
  | numberLiteral (value : Rat) : Expression
  | stringLiteral (value : String) : Expression
  | booleanLiteral (value : Bool) : Expression
  | arrayLiteral (values : List Expression) : Expression

/-- A `Model`: ordered sequence of top-level expressions. -/
structure Model where
  expressions : List Expression

/-- The `EvaluationResult` shape of `specter-completion.ts`. -/
structure EvaluationResult where
  value : Value
  type : String
  success : Bool
  error : Option String := none

/-- Result of a built-in implementation (`{ value, type }`). -/
structure FnResult where
  value : Value
  type : String

/-- A `FunctionImplementation` of `specter-completion.ts`; `throw` becomes
`Except.error`. -/
structure FunctionImplementation where
  name : String
  implementation : List Value → Except String FnResult

/-- The evaluator's built-in registry (`SpecterEvaluator.registerBuiltinFunctions`
in `specter-completion.ts`), in insertion order.  Note it registers exactly
these ten functions: no `Currency` and no `Duration`. -/
def functionRegistry : List (String × FunctionImplementation) :=
  [ ("GreaterThan",
      { name := "GreaterThan"
        implementation := fun args =>
          if args.length ≠ 2 then .error "GreaterThan expects 2 arguments"
          else .ok { value := .bool (jsGreater (args.getD 0 .null) (args.getD 1 .null)), type := "boolean" } }),
    ("LessThan",
      { name := "LessThan"
        implementation := fun args =>
          if args.length ≠ 2 then .error "LessThan expects 2 arguments"
          else .ok { value := .bool (jsLess (args.getD 0 .null) (args.getD 1 .null)), type := "boolean" } }),
    ("Equals",
      { name := "Equals"
        implementation := fun args =>
          if args.length ≠ 2 then .error "Equals expects 2 arguments"
          else .ok { value := .bool (jsStrictEq (args.getD 0 .null) (args.getD 1 .null)), type := "boolean" } }),
    ("Not",
      { name := "Not"
        implementation := fun args =>
          if args.length ≠ 1 then .error "Not expects 1 argument"
          else .ok { value := .bool (!jsTruthy (args.getD 0 .null)), type := "boolean" } }),
    ("Empty",
      { name := "Empty"
        implementation := fun args =>
          if args.length ≠ 1 then .error "Empty expects 1 argument"
          else .ok { value := .bool (jsEmpty (args.getD 0 .null)), type := "boolean" } }),
    ("Contains",
      { name := "Contains"
        implementation := fun args =>
          if args.length ≠ 2 then .error "Contains expects 2 arguments"
          else match args.getD 0 .null with
            | .arr l => .ok { value := .bool (l.any (fun v => jsStrictEq v (args.getD 1 .null))), type := "boolean" }
            | _ => .error "First argument must be an array" }),
    ("add",
      { name := "add"
        implementation := fun args =>
          if args.length ≠ 2 then .error "add expects 2 arguments"
          else .ok { value := jsAdd (args.getD 0 .null) (args.getD 1 .null), type := "number" } }),
    ("subtract",
      { name := "subtract"
        implementation := fun args =>
          if args.length ≠ 2 then .error "subtract expects 2 arguments"
          else .ok { value := jsSub (args.getD 0 .null) (args.getD 1 .null), type := "number" } }),
    ("multiply",
      { name := "multiply"
        implementation := fun args =>
          if args.length ≠ 2 then .error "multiply expects 2 arguments"
          else .ok { value := jsMul (args.getD 0 .null) (args.getD 1 .null), type := "number" } }),
    ("divide",
      { name := "divide"
        implementation := fun args =>
          if args.length ≠ 2 then .error "divide expects 2 arguments"
          else if (match args.getD 1 .null with | .num q => q == 0 | _ => false)
          then .error "Division by zero"
          else .ok { value := jsDiv (args.getD 0 .null) (args.getD 1 .null), type := "number" } }) ]

/-- First-match lookup in an insertion-ordered registry (the `Map.get`
behaviour; keys are registered at most once). -/
def regLookup {α : Type} (reg : List (String × α)) (name : String) : Option α :=
  match reg with
  | [] => none
  | (k, v) :: rest => if k = name then some v else regLookup rest name

mutual

/-- Translation of `SpecterEvaluator.evaluateExpression` (with the bodies of
`evaluatePrimaryExpression`, `evaluateLiteral` and `evaluateFunctionCall`
inlined at their single call sites; the `$type` dispatch chain becomes the
constructor match).  The surrounding `try/catch` surfaces in the
`functionCall` branch: the built-in implementations are the only `throw`
sites reachable inside one frame, and a caught error yields
`{value:null, type:'error', success:false, error:message}`. -/
def evaluateExpression : Expression → EvaluationResult
  | .logical left operator right =>
    let leftResult := evaluateExpression left
    if leftResult.success = false then leftResult
    else
      match right with
      | some r =>
        let rightResult := evaluateExpression r
        if rightResult.success = false then rightResult
        else
          match operator with
          | some .AND =>
            { value := jsAnd leftResult.value rightResult.value, type := "boolean", success := true }
          | some .OR =>
            { value := jsOr leftResult.value rightResult.value, type := "boolean", success := true }
          | none => leftResult
      | none => leftResult
  | .functionCall name arguments =>
    -- `const args = call.arguments?.values.map(...) || []` runs before the
    -- registry lookup in the source; argument evaluation is pure here, so
    -- the `args` expression is inlined at its use site unchanged.
    match regLookup functionRegistry name with
    | none =>
      { value := .null, type := "error", success := false,
        error := some ("Unknown function: " ++ name) }
    | some func =>
      match func.implementation
          (match arguments with
           | some values => evalArgValues values
           | none => []) with
      | .ok result => { value := result.value, type := result.type, success := true }
      | .error msg =>
        { value := .null, type := "error", success := false, error := some msg }
  | .parenthesized inner => evaluateExpression inner
  | .numberLiteral v => { value := .num v, type := "number", success := true }
  | .stringLiteral v => { value := .str v, type := "string", success := true }
  | .booleanLiteral v => { value := .bool v, type := "boolean", success := true }
  | .arrayLiteral values =>
    { value := .arr (evalArgValues values), type := "array", success := true }

/-- Translation of `values.map(expr => this.evaluateExpression(expr).value)` — the `.value`
projection discards `success`/`error` of each element. -/
def evalArgValues : List Expression → List Value
  | [] => []
  | e :: es => (evaluateExpression e).value :: evalArgValues es

end

/-- Translation of `SpecterEvaluator.evaluateModel`: a loop pushing one result per
top-level expression. -/
def evaluateModel (model : Model) : List EvaluationResult :=
  model.expressions.foldl (fun results e => results ++ [evaluateExpression e]) []

/-! ## Validator (`src/app/language/specter-validation.ts`) -/

/-- One entry of a signature's `parameters` list. -/
structure Param where
  name : String
  type : String
  optional : Bool := false

/-- A `FunctionSignature` of `specter-validation.ts`. -/
structure FunctionSignature where
  name : String
  parameters : List Param
  returnType : String
  description : String

/-- Diagnostic severity (`accept('error', ...)` / `accept('warning', ...)`). -/
inductive Severity where
  | error : Severity
  | warning : Severity
deriving DecidableEq

/-- A diagnostic as accepted by the validator.  The source also attaches a
node/property reference for editor ranges; that presentation-layer datum is
not modelled. -/
structure Diagnostic where
  severity : Severity
  message : String
deriving DecidableEq

/-- The validator's built-in registry
(`SpecterValidator.registerBuiltinFunctions` in `specter-validation.ts`),
in insertion order.  Every signature here is monomorphic: in particular
`add`/`subtract` take `(number, number)` only. -/
def validatorRegistry : List (String × FunctionSignature) :=
  [ ("GreaterThan",
      { name := "GreaterThan"
        parameters := [{ name := "left", type := "number" }, { name := "right", type := "number" }]
        returnType := "boolean"
        description := "Returns true if left is greater than right" }),
    ("LessThan",
      { name := "LessThan"
        parameters := [{ name := "left", type := "number" }, { name := "right", type := "number" }]
        returnType := "boolean"
        description := "Returns true if left is less than right" }),
    ("Equals",
      { name := "Equals"
        parameters := [{ name := "left", type := "any" }, { name := "right", type := "any" }]
        returnType := "boolean"
        description := "Returns true if left equals right" }),
    ("Not",
      { name := "Not"
        parameters := [{ name := "value", type := "boolean" }]
        returnType := "boolean"
        description := "Returns the logical NOT of the value" }),
    ("Empty",
      { name := "Empty"
        parameters := [{ name := "value", type := "string" }]
        returnType := "boolean"
        description := "Returns true if the string is empty or null" }),
    ("Contains",
      { name := "Contains"
        parameters := [{ name := "array", type := "array" }, { name := "value", type := "any" }]
        returnType := "boolean"
        description := "Returns true if the array contains the value" }),
    ("add",
      { name := "add"
        parameters := [{ name := "left", type := "number" }, { name := "right", type := "number" }]
        returnType := "number"
        description := "Adds two numbers" }),
    ("subtract",
      { name := "subtract"
        parameters := [{ name := "left", type := "number" }, { name := "right", type := "number" }]
        returnType := "number"
        description := "Subtracts right from left" }),
    ("multiply",
      { name := "multiply"
        parameters := [{ name := "left", type := "number" }, { name := "right", type := "number" }]
        returnType := "number"
        description := "Multiplies two numbers" }),
    ("divide",
      { name := "divide"
        parameters := [{ name := "left", type := "number" }, { name := "right", type := "number" }]
        returnType := "number"
        description := "Divides left by right" }),
    ("Currency",
      { name := "Currency"
        parameters := [{ name := "amount", type := "number" }, { name := "currencyCode", type := "string" }]
        returnType := "currency"
        description := "Creates a currency value with amount and currency code" }),
    ("Duration",
      { name := "Duration"
        parameters := [{ name := "value", type := "number" }, { name := "unit", type := "string" }]
        returnType := "duration"
        description := "Creates a duration value with amount and unit (DAYS, WEEKS, MONTHS, YEARS)" }) ]

/-- Translation of `SpecterValidator.getExpressionType`: bottom-up type inference.
Returns `none` when the type cannot be inferred (e.g. a call to an
unregistered function). -/
def getExpressionType : Expression → Option String
  | .numberLiteral _ => some "number"
  | .stringLiteral _ => some "string"
  | .booleanLiteral _ => some "boolean"
  | .arrayLiteral _ => some "array"
  | .functionCall name _ =>
    match regLookup validatorRegistry name with
    | some signature => some signature.returnType
    | none => none
  | .logical _ _ _ => some "boolean"
  | .parenthesized inner => getExpressionType inner

/-- Translation of `SpecterValidator.isTypeCompatible`: equal types, or a declared
`'any'`, are compatible. -/
def isTypeCompatible (actual expected : String) : Bool :=
  if actual = expected then true
  else if expected = "any" then true
  else false

/-- The `value.replace(/"/g, '')` quote-stripping applied by
`validateSpecificFunction`. -/
def stripQuotes (s : String) : String :=
  String.mk (s.data.filter (fun c => c ≠ '"'))

/-- The per-argument type check inside `SpecterValidator.checkFunctionCall`
(the `if (actualType && !this.isTypeCompatible(actualType, expectedType))`
branch of the argument loop): emits the mismatch error only when the
argument's type was inferred (non-null) and is incompatible with the
declared parameter type at that position. -/
def argTypeCheck (signature : FunctionSignature) (callName : String)
    (index : Nat) (arg : Expression) : List Diagnostic :=
  if index < signature.parameters.length then
    let expectedType := (signature.parameters.getD index { name := "", type := "" }).type
    match getExpressionType arg with
    | some actualType =>
      if isTypeCompatible actualType expectedType then []
      else
        [{ severity := .error,
           message := "Argument " ++ toString (index + 1) ++ " of '" ++ callName ++
             "' expects type '" ++ expectedType ++ "', got '" ++ actualType ++ "'." }]
    | none => []
  else []

/-- Translation of `SpecterValidator.validateSpecificFunction`: the `Currency` code-length
warning and `Duration` unit error. -/
def validateSpecificFunction (name : String)
    (arguments : Option (List Expression)) : List Diagnostic :=
  if name = "Currency" ∧ 2 ≤ (arguments.getD []).length then
    match (arguments.getD []).getD 1 (.numberLiteral 0) with
    | .stringLiteral v =>
      if (stripQuotes v).length ≠ 3 then
        [{ severity := .warning,
           message := "Currency code should be 3 characters long (e.g., \"USD\")" }]
      else []
    | _ => []
  else if name = "Duration" ∧ 2 ≤ (arguments.getD []).length then
    match (arguments.getD []).getD 1 (.numberLiteral 0) with
    | .stringLiteral v =>
      let unit := stripQuotes v
      if unit ∈ ["DAYS", "WEEKS", "MONTHS", "YEARS"] then []
      else
        [{ severity := .error,
           message := "Invalid duration unit '" ++ unit ++
             "'. Valid units: DAYS, WEEKS, MONTHS, YEARS" }]
    | _ => []
  else []

mutual

/-- Translation of `SpecterValidator.checkExpression`: dispatch on the node kind;
literals contribute nothing. -/
def checkExpression : Expression → List Diagnostic
  | .logical left _ right =>
    -- checkLogicalExpression: both operands go through validatePrimaryExpression
    validatePrimaryExpression left ++
      (match right with
       | some r => validatePrimaryExpression r
       | none => [])
  | .functionCall name arguments => checkFunctionCall name arguments
  | .parenthesized inner => checkExpression inner  -- checkParenthesizedExpression
  | .arrayLiteral values => checkExpressionList values  -- checkArrayLiteral
  | _ => []

/-- Translation of `SpecterValidator.validatePrimaryExpression`: function calls,
parenthesized expressions and array literals recurse; anything else
contributes nothing. -/
def validatePrimaryExpression : Expression → List Diagnostic
  | .functionCall name arguments => checkFunctionCall name arguments
  | .parenthesized inner => checkExpression inner  -- checkParenthesizedExpression
  | .arrayLiteral values => checkExpressionList values  -- checkArrayLiteral
  | _ => []

/-- Translation of `SpecterValidator.checkFunctionCall`: unknown-function error (with the
comma-joined registry names), arity checks, the per-argument type check and
recursion, then the function-specific `Currency`/`Duration` rules. -/
def checkFunctionCall (name : String) (arguments : Option (List Expression)) :
    List Diagnostic :=
  match regLookup validatorRegistry name with
  | none =>
    [{ severity := .error,
       message := "Unknown function '" ++ name ++ "'. Available functions: " ++
         String.intercalate ", " (validatorRegistry.map (fun p => p.1)) }]
  | some signature =>
    let expectedParamCount := signature.parameters.length
    let actualParamCount := (arguments.getD []).length
    let countDiags : List Diagnostic :=
      if actualParamCount < expectedParamCount then
        let requiredParams := (signature.parameters.filter (fun p => !p.optional)).length
        if actualParamCount < requiredParams then
          [{ severity := .error,
             message := "Function '" ++ name ++ "' requires at least " ++
               toString requiredParams ++ " arguments, got " ++
               toString actualParamCount ++ "." }]
        else []
      else if expectedParamCount < actualParamCount then
        [{ severity := .error,
           message := "Function '" ++ name ++ "' expects at most " ++
             toString expectedParamCount ++ " arguments, got " ++
             toString actualParamCount ++ "." }]
      else []
    let argDiags : List Diagnostic :=
      match arguments with
      | some values => checkArguments signature name 0 values
      | none => []
    countDiags ++ argDiags ++ validateSpecificFunction name arguments

/-- The argument `forEach` loop of `checkFunctionCall`: per-argument type
check, then recursive validation of the argument expression. -/
def checkArguments (signature : FunctionSignature) (callName : String)
    (index : Nat) : List Expression → List Diagnostic
  | [] => []
  | arg :: rest =>
    argTypeCheck signature callName index arg ++ checkExpression arg ++
      checkArguments signature callName (index + 1) rest

/-- The element loop of `SpecterValidator.checkArrayLiteral`. -/
def checkExpressionList : List Expression → List Diagnostic
  | [] => []
  | e :: rest => checkExpression e ++ checkExpressionList rest

end

/-- Translation of `SpecterValidator.checkModel`: validate each top-level expression in
order, concatenating the accepted diagnostics. -/
def checkModel (model : Model) : List Diagnostic :=
  checkExpressionList model.expressions

/-! ## Parser

Modelled from the spec: the repository ships only the grammar text
(`src/app/language/specter-grammar.ts`); the parser itself is generated
from it by the Langium toolchain and the generated code is not part of the
source tree.  The definitions below therefore follow the grammar rules and
terminals of `SpecterGrammar` (equivalently §4.1 of the spec): `Model :=
Expression*`, a single flat left-associative `AND`/`OR` level, primaries
(function call, literal, parenthesized), and the NUMBER/STRING/ID/WS/
comment terminals.  Syntax-error reporting is not modelled: a failed parse
is `none`. -/

/-- Tokens of the Specter surface syntax (terminals of `SpecterGrammar`;
`AND`, `OR`, `true`, `false` are keywords carved out of ID). -/
inductive Token where
  | number (value : Rat)
  | string (value : String)
  | id (name : String)
  | kwTrue : Token
  | kwFalse : Token
  | kwAND : Token
  | kwOR : Token
  | lparen : Token
  | rparen : Token
  | lbracket : Token
  | rbracket : Token
  | comma : Token
deriving DecidableEq

/-- ID characters: `[a-zA-Z0-9_$]`. -/
def isIdChar (c : Char) : Bool := c.isAlphanum || c = '_' || c = '$'

/-- ID start characters: `[a-zA-Z_$]`. -/
def isIdStart (c : Char) : Bool := c.isAlpha || c = '_' || c = '$'

/-- Decimal digit run to a natural number. -/
def digitsToNat (ds : List Char) : Nat :=
  ds.foldl (fun n c => 10 * n + (c.toNat - '0'.toNat)) 0

/-- NUMBER terminal `-?\d+(\.\d+)?` as a rational (the engine's float64
and `Rat` agree on the decimal literals exercised here). -/
def numberValue (neg : Bool) (intDigits fracDigits : List Char) : Rat :=
  let magnitude : Rat :=
    if fracDigits.isEmpty then (digitsToNat intDigits : Rat)
    else
      (digitsToNat intDigits : Rat) +
        (digitsToNat fracDigits : Rat) / ((10 : Rat) ^ fracDigits.length)
  if neg then -magnitude else magnitude

/-- Skip to the end of a `/* ... */` block comment. -/
def skipBlockComment : Nat → List Char → Option (List Char)
  | 0, _ => none
  | _ + 1, [] => none
  | fuel + 1, c :: cs =>
    match c, cs with
    | '*', '/' :: rest => some rest
    | _, _ => skipBlockComment fuel cs

/-- Keyword carve-out for identifiers. -/
def classifyWord (w : String) : Token :=
  if w = "AND" then .kwAND
  else if w = "OR" then .kwOR
  else if w = "true" then .kwTrue
  else if w = "false" then .kwFalse
  else .id w

/-- Tokenizer for the terminals of `SpecterGrammar`: whitespace and the
two comment forms are skipped; `none` on a character no terminal starts. -/
def tokenize : Nat → List Char → Option (List Token)
  | 0, _ => none
  | _ + 1, [] => some []
  | fuel + 1, c :: cs =>
    if c.isWhitespace then tokenize fuel cs
    else if c = '/' then
      match cs with
      | '/' :: rest => tokenize fuel (rest.dropWhile (fun ch => ch ≠ '\n'))
      | '*' :: rest =>
        match skipBlockComment (rest.length + 1) rest with
        | some rest' => tokenize fuel rest'
        | none => none
      | _ => none
    else if c = '(' then (tokenize fuel cs).map (Token.lparen :: ·)
    else if c = ')' then (tokenize fuel cs).map (Token.rparen :: ·)
    else if c = '[' then (tokenize fuel cs).map (Token.lbracket :: ·)
    else if c = ']' then (tokenize fuel cs).map (Token.rbracket :: ·)
    else if c = ',' then (tokenize fuel cs).map (Token.comma :: ·)
    else if c = '"' then
      let content := cs.takeWhile (fun ch => ch ≠ '"')
      match cs.drop content.length with
      | '"' :: rest => (tokenize fuel rest).map (Token.string (String.mk content) :: ·)
      | _ => none
    else if c = '-' || c.isDigit then
      let neg := c = '-'
      let body := if neg then cs else c :: cs
      let intDigits := body.takeWhile Char.isDigit
      if intDigits.isEmpty then none
      else
        let afterInt := body.drop intDigits.length
        match afterInt with
        | '.' :: afterDot =>
          let fracDigits := afterDot.takeWhile Char.isDigit
          if fracDigits.isEmpty then
            -- a bare '.' is not part of the NUMBER terminal (and no other
            -- terminal accepts it, so the overall tokenization fails)
            none
          else
            (tokenize fuel (afterDot.drop fracDigits.length)).map
              (Token.number (numberValue neg intDigits fracDigits) :: ·)
        | _ =>
          (tokenize fuel afterInt).map
            (Token.number (numberValue neg intDigits []) :: ·)
    else if isIdStart c then
      let restChars := cs.takeWhile isIdChar
      (tokenize fuel (cs.drop restChars.length)).map
        (classifyWord (String.mk (c :: restChars)) :: ·)
    else none

mutual

/-- The `Expression`/`LogicalExpression` rule: a primary followed by any
number of `('AND'|'OR') Primary` steps, grouped left-to-right. -/
def parseExpr : Nat → List Token → Option (Expression × List Token)
  | 0, _ => none
  | fuel + 1, toks =>
    match parsePrimary fuel toks with
    | some (left, rest) => parseLogicalTail fuel left rest
    | none => none

/-- The `({LogicalExpression.left=current} operator=('AND'|'OR')
right=PrimaryExpression)*` loop: each step wraps the accumulated
expression as the new `left`. -/
def parseLogicalTail : Nat → Expression → List Token → Option (Expression × List Token)
  | 0, _, _ => none
  | fuel + 1, left, Token.kwAND :: rest =>
    match parsePrimary fuel rest with
    | some (right, rest') =>
      parseLogicalTail fuel (.logical left (some .AND) (some right)) rest'
    | none => none
  | fuel + 1, left, Token.kwOR :: rest =>
    match parsePrimary fuel rest with
    | some (right, rest') =>
      parseLogicalTail fuel (.logical left (some .OR) (some right)) rest'
    | none => none
  | _ + 1, left, toks => some (left, toks)

/-- The `PrimaryExpression` rule: function call, literal, or parenthesized
expression.  A function call with `()` has an absent `FunctionArguments`
(the grammar's `arguments=FunctionArguments?`); an array literal requires
at least one element. -/
def parsePrimary : Nat → List Token → Option (Expression × List Token)
  | 0, _ => none
  | _ + 1, Token.number q :: rest => some (.numberLiteral q, rest)
  | _ + 1, Token.string s :: rest => some (.stringLiteral s, rest)
  | _ + 1, Token.kwTrue :: rest => some (.booleanLiteral true, rest)
  | _ + 1, Token.kwFalse :: rest => some (.booleanLiteral false, rest)
  | fuel + 1, Token.id name :: Token.lparen :: rest =>
    (match rest with
     | Token.rparen :: rest' => some (.functionCall name none, rest')
     | _ =>
       match parseExprList fuel rest with
       | some (args, Token.rparen :: rest') =>
         some (.functionCall name (some args), rest')
       | _ => none)
  | fuel + 1, Token.lbracket :: rest =>
    (match parseExprList fuel rest with
     | some (vals, Token.rbracket :: rest') => some (.arrayLiteral vals, rest')
     | _ => none)
  | fuel + 1, Token.lparen :: rest =>
    (match parseExpr fuel rest with
     | some (e, Token.rparen :: rest') => some (.parenthesized e, rest')
     | _ => none)
  | _ + 1, _ => none

/-- The `Expression (',' Expression)*` list rule (shared by `FunctionArguments` and
`ArrayLiteral`). -/
def parseExprList : Nat → List Token → Option (List Expression × List Token)
  | 0, _ => none
  | fuel + 1, toks =>
    match parseExpr fuel toks with
    | some (e, Token.comma :: rest) =>
      (match parseExprList fuel rest with
       | some (es, rest') => some (e :: es, rest')
       | none => none)
    | some (e, rest) => some ([e], rest)
    | none => none

end

/-- The `entry Model: expressions+=Expression*` rule: expressions until
the input is exhausted. -/
def parseModelToks : Nat → List Token → Option (List Expression)
  | _, [] => some []
  | 0, _ => none
  | fuel + 1, toks =>
    match parseExpr (2 * toks.length + 2) toks with
    | some (e, rest) =>
      (match parseModelToks fuel rest with
       | some es => some (e :: es)
       | none => none)
    | none => none

/-- The whole `parse(text)` pipeline (modelled from the spec, see above): tokenize, then parse a `Model`.  Failures
(`none`) stand in for the source's syntax-error diagnostics. -/
def parse (text : String) : Option Model :=
  match tokenize (text.length + 1) text.data with
  | some toks =>
    (match parseModelToks (toks.length + 1) toks with
     | some exprs => some ⟨exprs⟩
     | none => none)
  | none => none


/-! ## Shared lemmas -/

/-- The argument/element value mapping is `List.map` of the result's
`value` projection. -/
theorem evalArgValues_eq_map (l : List Expression) :
    evalArgValues l = l.map (fun e => (evaluateExpression e).value) := by
  induction l with
  | nil => rfl
  | cons e es ih => simp [evalArgValues, ih]

/-- The result-pushing loop of `evaluateModel` is `List.map`. -/
theorem foldl_push_results (l : List Expression) (acc : List EvaluationResult) :
    l.foldl (fun results e => results ++ [evaluateExpression e]) acc =
      acc ++ l.map evaluateExpression := by
  induction l generalizing acc with
  | nil => simp
  | cons e es ih => simp [List.foldl, ih]

/-- One-step characterization of `evaluateExpression` on a function call. -/
theorem evalExpr_functionCall (name : String) (arguments : Option (List Expression)) :
    evaluateExpression (.functionCall name arguments) =
      (match regLookup functionRegistry name with
       | none =>
         { value := .null, type := "error", success := false,
           error := some ("Unknown function: " ++ name) }
       | some func =>
         match func.implementation
             (match arguments with
              | some values => evalArgValues values
              | none => []) with
         | .ok result =>
           { value := result.value, type := result.type, success := true, error := none }
         | .error msg =>
           { value := .null, type := "error", success := false, error := some msg }) := by
  cases arguments with
  | none =>
    cases hlk : regLookup functionRegistry name with
    | none => simp [evaluateExpression, hlk]
    | some func =>
      cases himpl : func.implementation [] <;> simp [evaluateExpression, hlk, himpl]
  | some values =>
    cases hlk : regLookup functionRegistry name with
    | none => simp [evaluateExpression, hlk]
    | some func =>
      cases himpl : func.implementation (evalArgValues values) <;>
        simp [evaluateExpression, hlk, himpl]

/-- Every unsuccessful evaluation result has the caught-failure shape
`{value:null, type:'error', success:false, error:<message>}`. -/
theorem evalFailure_shape : ∀ (e : Expression),
    (evaluateExpression e).success = false →
    ∃ msg : String, evaluateExpression e =
      { value := Value.null, type := "error", success := false, error := some msg } := by
  suffices h : ∀ (n : Nat) (e : Expression), sizeOf e ≤ n →
      (evaluateExpression e).success = false →
      ∃ msg : String, evaluateExpression e =
        { value := Value.null, type := "error", success := false, error := some msg } from
    fun e => h (sizeOf e) e le_rfl
  intro n
  induction n with
  | zero =>
    intro e he
    exfalso
    cases e <;> simp at he
  | succ n ih =>
    intro e he hfail
    cases e with
    | logical l op r =>
      have hls : sizeOf l ≤ n := by simp at he; omega
      cases r with
      | none =>
        have hR : evaluateExpression (.logical l op none) = evaluateExpression l := by
          rcases op with _ | ⟨⟩ <;> by_cases hl : (evaluateExpression l).success = false <;>
            simp [evaluateExpression, hl]
        rw [hR] at hfail ⊢
        exact ih l hls hfail
      | some r' =>
        have hrs : sizeOf r' ≤ n := by simp at he; omega
        by_cases hl : (evaluateExpression l).success = false
        · have hR : evaluateExpression (.logical l op (some r')) = evaluateExpression l := by
            rcases op with _ | ⟨⟩ <;> simp [evaluateExpression, hl]
          rw [hR] at hfail ⊢
          exact ih l hls hfail
        · by_cases hr : (evaluateExpression r').success = false
          · have hR : evaluateExpression (.logical l op (some r')) =
                evaluateExpression r' := by
              rcases op with _ | ⟨⟩ <;> simp [evaluateExpression, hl, hr]
            rw [hR] at hfail ⊢
            exact ih r' hrs hfail
          · exfalso
            rcases op with _ | op'
            · have hR : evaluateExpression (.logical l none (some r')) =
                  evaluateExpression l := by
                simp [evaluateExpression, hl, hr]
              rw [hR] at hfail
              exact hl hfail
            · cases op'
              · have hR : evaluateExpression (.logical l (some .AND) (some r')) =
                    { value := jsAnd (evaluateExpression l).value (evaluateExpression r').value,
                      type := "boolean", success := true, error := none } := by
                  simp [evaluateExpression, hl, hr]
                rw [hR] at hfail
                simp at hfail
              · have hR : evaluateExpression (.logical l (some .OR) (some r')) =
                    { value := jsOr (evaluateExpression l).value (evaluateExpression r').value,
                      type := "boolean", success := true, error := none } := by
                  simp [evaluateExpression, hl, hr]
                rw [hR] at hfail
                simp at hfail
    | functionCall name arguments =>
      rw [evalExpr_functionCall] at hfail ⊢
      cases hlk : regLookup functionRegistry name with
      | none => exact ⟨"Unknown function: " ++ name, rfl⟩
      | some func =>
        rw [hlk] at hfail
        have key : ∀ res : Except String FnResult,
            ((match res with
              | .ok result =>
                ({ value := result.value, type := result.type, success := true,
                   error := none } : EvaluationResult)
              | .error msg =>
                ({ value := Value.null, type := "error", success := false,
                   error := some msg } : EvaluationResult)).success = false) →
            ∃ m : String, (match res with
              | .ok result =>
                ({ value := result.value, type := result.type, success := true,
                   error := none } : EvaluationResult)
              | .error msg =>
                ({ value := Value.null, type := "error", success := false,
                   error := some msg } : EvaluationResult)) =
              { value := Value.null, type := "error", success := false,
                error := some m } := by
          intro res h
          cases res with
          | ok result => simp at h
          | error msg => exact ⟨msg, rfl⟩
        exact key _ hfail
    | parenthesized inner =>
      have hR : evaluateExpression (.parenthesized inner) = evaluateExpression inner := by
        simp [evaluateExpression]
      rw [hR] at hfail ⊢
      have hs : sizeOf inner ≤ n := by simp at he; omega
      exact ih inner hs hfail
    | numberLiteral v => simp [evaluateExpression] at hfail
    | stringLiteral v => simp [evaluateExpression] at hfail
    | booleanLiteral v => simp [evaluateExpression] at hfail
    | arrayLiteral values => simp [evaluateExpression] at hfail

/-! ## Claims -/

/-- C1: for every `LogicalExpression` with both operands present, the
evaluator evaluates the left operand and — whenever the left operand
evaluated successfully, regardless of its boolean value — also evaluates
the right operand; if the right operand's result is unsuccessful, the
whole expression's result is exactly that failure, for `AND` and `OR`
alike (no boolean short-circuiting). -/
theorem c1_no_boolean_short_circuit (l r : Expression) (op : LogicalOp)
    (hl : (evaluateExpression l).success = true)
    (hr : (evaluateExpression r).success = false) :
    evaluateExpression (.logical l (some op) (some r)) = evaluateExpression r := by
  cases op <;> simp [evaluateExpression, hl, hr]

/-- C1 witness: `false AND sideEffecting()` — the left operand alone would
decide an `AND`, yet the result is the right operand's unresolved-function
failure. -/
theorem c1_no_boolean_short_circuit_witness :
    (evaluateExpression (.booleanLiteral false)).success = true ∧
    (evaluateExpression (.functionCall "sideEffecting" none)).success = false ∧
    evaluateExpression
        (.logical (.booleanLiteral false) (some .AND)
          (some (.functionCall "sideEffecting" none))) =
      evaluateExpression (.functionCall "sideEffecting" none) :=
  ⟨rfl, rfl,
    c1_no_boolean_short_circuit (.booleanLiteral false)
      (.functionCall "sideEffecting" none) .AND rfl rfl⟩

/-- C2: parsing the source text `42` yields a model containing exactly
`NumberLiteral(42)`, and evaluating a literal node recovers its value and
tag with success — in particular `NumberLiteral(42)` evaluates to
`{value:42, type:'number', success:true}` (and in general every number,
string and boolean literal evaluates to its value and tag). -/
theorem c2_literal_roundtrip :
    parse "42" = some ⟨[.numberLiteral 42]⟩ ∧
    evaluateExpression (.numberLiteral 42) =
      { value := .num 42, type := "number", success := true, error := none } ∧
    (∀ q : Rat, evaluateExpression (.numberLiteral q) =
      { value := .num q, type := "number", success := true, error := none }) ∧
    (∀ s : String, evaluateExpression (.stringLiteral s) =
      { value := .str s, type := "string", success := true, error := none }) ∧
    (∀ b : Bool, evaluateExpression (.booleanLiteral b) =
      { value := .bool b, type := "boolean", success := true, error := none }) :=
  ⟨rfl, rfl, fun _ => rfl, fun _ => rfl, fun _ => rfl⟩

/-- C3 counterexample: the claim says evaluating `Currency(100, "US")`
succeeds with a currency value, but the evaluator's registry has no
`Currency` entry, so evaluation fails. -/
theorem c3_currency_counterexample :
    regLookup functionRegistry "Currency" = none ∧
    (evaluateExpression
      (.functionCall "Currency" (some [.numberLiteral 100, .stringLiteral "US"]))).success =
      false :=
  ⟨rfl, rfl⟩

/-- C3 amended: validating `Currency(100, "US")` produces exactly one
diagnostic, a warning about the code length, but evaluating the same
expression fails with `Unknown function: Currency` (the evaluator
registers no `Currency` built-in). -/
theorem c3_currency_amended :
    checkModel ⟨[.functionCall "Currency" (some [.numberLiteral 100, .stringLiteral "US"])]⟩ =
      [{ severity := .warning,
         message := "Currency code should be 3 characters long (e.g., \"USD\")" }] ∧
    evaluateExpression
        (.functionCall "Currency" (some [.numberLiteral 100, .stringLiteral "US"])) =
      { value := .null, type := "error", success := false,
        error := some "Unknown function: Currency" } :=
  ⟨by decide, rfl⟩

/-- C4: the claim (matching the repository's README documentation of an
"enhanced" polymorphic registry) says `add(Currency(100,"USD"),
Currency(200,"USD"))` gets no argument-type-mismatch diagnostic and has
type `currency`; the implemented validator registers `add` as
`(number, number) → number` only, so it emits two mismatch errors and
infers type `number` for the call. -/
theorem c4_add_currency_mismatch :
    checkFunctionCall "add"
        (some [.functionCall "Currency" (some [.numberLiteral 100, .stringLiteral "USD"]),
               .functionCall "Currency" (some [.numberLiteral 200, .stringLiteral "USD"])]) =
      [{ severity := .error,
         message := "Argument 1 of 'add' expects type 'number', got 'currency'." },
       { severity := .error,
         message := "Argument 2 of 'add' expects type 'number', got 'currency'." }] ∧
    getExpressionType
        (.functionCall "add"
          (some [.functionCall "Currency" (some [.numberLiteral 100, .stringLiteral "USD"]),
                 .functionCall "Currency" (some [.numberLiteral 200, .stringLiteral "USD"])])) =
      some "number" :=
  ⟨by decide, rfl⟩

/-- C5 counterexample: the claim says a failed argument aborts the call
with that argument's failure; but `Not(unknownFn())` — whose argument
evaluates unsuccessfully — evaluates to a successful boolean result (the
implementation is invoked with the failed argument's `null` value). -/
theorem c5_argument_failure_counterexample :
    (evaluateExpression (.functionCall "unknownFn" none)).success = false ∧
    evaluateExpression (.functionCall "Not" (some [.functionCall "unknownFn" none])) =
      { value := .bool true, type := "boolean", success := true, error := none } :=
  ⟨rfl, rfl⟩

/-- C5 amended: the evaluator evaluates each argument expression but keeps
only its `value` field (which is `null` for any failed argument) — an
unsuccessful argument does not abort the call, and the call's result
depends only on the argument values, not on their success flags. -/
theorem c5_arguments_by_value :
    (∀ (name : String) (args args' : List Expression),
      args.map (fun e => (evaluateExpression e).value) =
        args'.map (fun e => (evaluateExpression e).value) →
      evaluateExpression (.functionCall name (some args)) =
        evaluateExpression (.functionCall name (some args'))) ∧
    (∀ e : Expression, (evaluateExpression e).success = false →
      (evaluateExpression e).value = Value.null) := by
  constructor
  · intro name args args' h
    rw [evalExpr_functionCall, evalExpr_functionCall]
    simp only [evalArgValues_eq_map, h]
  · intro e hfail
    obtain ⟨msg, hmsg⟩ := evalFailure_shape e hfail
    rw [hmsg]

/-- C5 amended witness: two calls whose arguments are different failing
expressions with the same `null` value evaluate identically. -/
theorem c5_arguments_by_value_witness :
    ([Expression.functionCall "unknownFn" none].map (fun e => (evaluateExpression e).value) =
      [Expression.functionCall "otherUnknownFn" none].map (fun e => (evaluateExpression e).value)) ∧
    evaluateExpression (.functionCall "Not" (some [.functionCall "unknownFn" none])) =
      evaluateExpression (.functionCall "Not" (some [.functionCall "otherUnknownFn" none])) :=
  ⟨rfl, c5_arguments_by_value.1 "Not" _ _ rfl⟩

/-- C6: every `divide` call with two arguments whose right operand's value
is exactly 0 evaluates to `{success:false, type:'error', error:"Division
by zero"}`; the validator emits no diagnostic for `divide(5, 0)`, and its
evaluation yields exactly that failure. -/
theorem c6_divide_by_zero :
    (∀ e1 e2 : Expression, (evaluateExpression e2).value = Value.num 0 →
      evaluateExpression (.functionCall "divide" (some [e1, e2])) =
        { value := .null, type := "error", success := false,
          error := some "Division by zero" }) ∧
    checkModel ⟨[.functionCall "divide" (some [.numberLiteral 5, .numberLiteral 0])]⟩ = [] ∧
    evaluateExpression (.functionCall "divide" (some [.numberLiteral 5, .numberLiteral 0])) =
      { value := .null, type := "error", success := false,
        error := some "Division by zero" } := by
  refine ⟨?_, by decide, rfl⟩
  intro e1 e2 h
  rw [evalExpr_functionCall]
  simp only [evalArgValues]
  rw [h]
  rfl

/-- C6 witness: `divide(5, 0)` through the general right-operand-zero
statement. -/
theorem c6_divide_by_zero_witness :
    (evaluateExpression (.numberLiteral 0)).value = Value.num 0 ∧
    evaluateExpression (.functionCall "divide" (some [.numberLiteral 5, .numberLiteral 0])) =
      { value := .null, type := "error", success := false,
        error := some "Division by zero" } :=
  ⟨rfl, c6_divide_by_zero.1 (.numberLiteral 5) (.numberLiteral 0) rfl⟩

/-- C7: a `FunctionCall` whose name resolves in neither registry gets a
single validation error whose message is exactly `Unknown function
'<name>'. Available functions: ` followed by the comma-joined registered
names, and evaluates to a failure with error `Unknown function: <name>`. -/
theorem c7_unknown_function (name : String) (arguments : Option (List Expression))
    (hv : regLookup validatorRegistry name = none)
    (he : regLookup functionRegistry name = none) :
    checkFunctionCall name arguments =
      [{ severity := .error,
         message := "Unknown function '" ++ name ++ "'. Available functions: " ++
           "GreaterThan, LessThan, Equals, Not, Empty, Contains, add, subtract, multiply, divide, Currency, Duration" }] ∧
    evaluateExpression (.functionCall name arguments) =
      { value := .null, type := "error", success := false,
        error := some ("Unknown function: " ++ name) } := by
  refine ⟨?_, ?_⟩
  · simp only [checkFunctionCall]
    rw [hv]
    rfl
  · rw [evalExpr_functionCall, he]

/-- C7 witness: `unknownFn(1, 2)`. -/
theorem c7_unknown_function_witness :
    regLookup validatorRegistry "unknownFn" = none ∧
    regLookup functionRegistry "unknownFn" = none ∧
    checkFunctionCall "unknownFn" (some [.numberLiteral 1, .numberLiteral 2]) =
      [{ severity := .error,
         message := "Unknown function '" ++ "unknownFn" ++ "'. Available functions: " ++
           "GreaterThan, LessThan, Equals, Not, Empty, Contains, add, subtract, multiply, divide, Currency, Duration" }] ∧
    (evaluateExpression
      (.functionCall "unknownFn" (some [.numberLiteral 1, .numberLiteral 2]))).success =
      false := by
  refine ⟨rfl, rfl, ?_, ?_⟩
  · exact (c7_unknown_function "unknownFn" (some [.numberLiteral 1, .numberLiteral 2]) rfl rfl).1
  · rw [(c7_unknown_function "unknownFn" (some [.numberLiteral 1, .numberLiteral 2]) rfl rfl).2]

/-- C8: `evaluateModel` returns exactly one result per top-level
expression, in source order (it is the elementwise `evaluateExpression`
map, so the result for one entry cannot affect the others), and every
unsuccessful result has been converted to the caught-failure shape
`{success:false, type:'error', error:<message>}`. -/
theorem c8_evaluate_model_contract :
    (∀ m : Model, evaluateModel m = m.expressions.map evaluateExpression) ∧
    (∀ e : Expression, (evaluateExpression e).success = false →
      ∃ msg : String, evaluateExpression e =
        { value := Value.null, type := "error", success := false, error := some msg }) := by
  constructor
  · intro m
    unfold evaluateModel
    rw [foldl_push_results]
    simp
  · exact evalFailure_shape

/-- C8 witness: a two-expression model where the second entry fails; the
result list is the per-expression map, and the failing entry has the
converted error shape. -/
theorem c8_evaluate_model_contract_witness :
    evaluateModel ⟨[.numberLiteral 1, .functionCall "unknownFn" none]⟩ =
      [Expression.numberLiteral 1, .functionCall "unknownFn" none].map evaluateExpression ∧
    ∃ msg : String, evaluateExpression (.functionCall "unknownFn" none) =
      { value := Value.null, type := "error", success := false, error := some msg } :=
  ⟨c8_evaluate_model_contract.1 ⟨[.numberLiteral 1, .functionCall "unknownFn" none]⟩,
   c8_evaluate_model_contract.2 (.functionCall "unknownFn" none) rfl⟩

/-- C9: the grammar's single flat `AND`/`OR` level groups left-to-right:
whenever token sequences `ta`, `tb`, `tc` parse as primaries `a`, `b`,
`c`, the input `ta AND tb OR tc` parses to `(a AND b) OR c` — an OR node
whose left child is the AND node — never to a grouping of `b OR c`
first. -/
theorem c9_flat_left_associative (f : Nat) (ta tb tc : List Token)
    (a b c : Expression)
    (ha : ∀ (g : Nat) (r : List Token), parsePrimary (g + 1) (ta ++ r) = some (a, r))
    (hb : ∀ (g : Nat) (r : List Token), parsePrimary (g + 1) (tb ++ r) = some (b, r))
    (hc : ∀ (g : Nat) (r : List Token), parsePrimary (g + 1) (tc ++ r) = some (c, r)) :
    parseExpr (f + 4) (ta ++ Token.kwAND :: (tb ++ Token.kwOR :: tc)) =
      some (.logical (.logical a (some .AND) (some b)) (some .OR) (some c), []) := by
  have h1 : parsePrimary (f + 3) (ta ++ Token.kwAND :: (tb ++ Token.kwOR :: tc)) =
      some (a, Token.kwAND :: (tb ++ Token.kwOR :: tc)) :=
    ha (f + 2) (Token.kwAND :: (tb ++ Token.kwOR :: tc))
  have h2 : parsePrimary (f + 2) (tb ++ Token.kwOR :: tc) =
      some (b, Token.kwOR :: tc) :=
    hb (f + 1) (Token.kwOR :: tc)
  have h3 : parsePrimary (f + 1) tc = some (c, []) := by
    have h := hc f []
    rwa [List.append_nil] at h
  simp only [parseExpr, parseLogicalTail, h1, h2, h3]

/-- C9 witness: `true AND false OR true` parses to
`(true AND false) OR true`. -/
theorem c9_flat_left_associative_witness :
    parseExpr 7 [Token.kwTrue, Token.kwAND, Token.kwFalse, Token.kwOR, Token.kwTrue] =
      some (.logical (.logical (.booleanLiteral true) (some .AND)
              (some (.booleanLiteral false))) (some .OR) (some (.booleanLiteral true)), []) :=
  c9_flat_left_associative 3 [Token.kwTrue] [Token.kwFalse] [Token.kwTrue]
    (.booleanLiteral true) (.booleanLiteral false) (.booleanLiteral true)
    (fun _ _ => rfl) (fun _ _ => rfl) (fun _ _ => rfl)

/-- C10: in the validator's per-argument type check, an argument whose
type cannot be inferred (`getExpressionType` is `null`) never produces a
mismatch diagnostic at its position; a mismatch is emitted only when the
inferred type is non-null, the position is covered by the signature, and
the inferred type is incompatible with the declared parameter type — and
a declared type of `any` is compatible with every type. -/
theorem c10_uninferred_argument_type :
    (∀ (signature : FunctionSignature) (callName : String) (index : Nat) (arg : Expression),
      getExpressionType arg = none →
      argTypeCheck signature callName index arg = []) ∧
    (∀ (signature : FunctionSignature) (callName : String) (index : Nat) (arg : Expression)
        (d : Diagnostic), d ∈ argTypeCheck signature callName index arg →
      index < signature.parameters.length ∧
      ∃ actualType, getExpressionType arg = some actualType ∧
        isTypeCompatible actualType
          ((signature.parameters.getD index { name := "", type := "" }).type) = false) ∧
    (∀ t : String, isTypeCompatible t "any" = true) := by
  refine ⟨?_, ?_, ?_⟩
  · intro signature callName index arg h
    simp [argTypeCheck, h]
  · intro signature callName index arg d hd
    by_cases hidx : index < signature.parameters.length
    · refine ⟨hidx, ?_⟩
      cases hty : getExpressionType arg with
      | none =>
        exfalso
        simp [argTypeCheck, hty] at hd
      | some actualType =>
        refine ⟨actualType, rfl, ?_⟩
        by_cases hcomp : isTypeCompatible actualType
            ((signature.parameters.getD index { name := "", type := "" }).type) = true
        · exfalso
          rw [List.getD_eq_getElem _ _ hidx] at hcomp
          simp [argTypeCheck, hty, hidx, hcomp] at hd
        · simpa using hcomp
    · exfalso
      simp [argTypeCheck, hidx] at hd
  · intro t
    unfold isTypeCompatible
    by_cases h : t = "any" <;> simp [h]

/-- C10 witness: an argument that is a call to an unregistered function
has no inferable type and yields no mismatch diagnostic at its position. -/
theorem c10_uninferred_argument_type_witness :
    getExpressionType (.functionCall "mysteryFn" none) = none ∧
    argTypeCheck
        { name := "add"
          parameters := [{ name := "left", type := "number" }, { name := "right", type := "number" }]
          returnType := "number"
          description := "Adds two numbers" }
        "add" 0 (.functionCall "mysteryFn" none) = [] :=
  ⟨rfl,
    c10_uninferred_argument_type.1
      { name := "add"
        parameters := [{ name := "left", type := "number" }, { name := "right", type := "number" }]
        returnType := "number"
        description := "Adds two numbers" }
      "add" 0 (.functionCall "mysteryFn" none) rfl⟩

end Specter
